import Mathlib

/-!
Shallow embedding of the fish-feeder backend's feed-priority decision engine,
reservation queue, cooldown calculator and feed dispatcher, translated from:

* src/lib/utils/feeder.js (isFastingDay, isDeviceOnline, calculateCooldownMs,
  isValidLastFeedTime, canFeed, calculateScheduledTime, triggerFeed,
  sendFeedExecutedMessage)
* src/app/api/cron/execute/route.js (periodic decision engine, POST; and the
  auto-feed variant POST in the same file)
* src/app/api/feed/manual/route.js (operator-initiated feed, POST)
* src/app/api/reservations/create/route.js (enqueue, POST)
* src/app/api/reservations/cancel/route.js (cancel, DELETE)

Modelling conventions:

* Instants are `Nat` milliseconds since the Unix epoch; every occurrence of
  `Date.now()` inside a single request handler is modelled by the one
  parameter `now` (the handlers are short-lived and the claims are about a
  single instant).  `new Date().getDay()` is the parameter `today`.
* JavaScript `null`/`undefined` fields are `Option`; the JS idiom `x || d`
  on numbers is `Option.getD` composed with a zero test where the default is
  nonzero, and on strings it is the helper `jsOr` (empty string is falsy).
* The stored reservation array is a typed `List Reservation`; the source's
  defensive filter `r && r.scheduledTime` drops null array slots (not
  representable in the typed list) and entries whose `scheduledTime` is the
  falsy number 0, which is modelled by `validReservations`.
* The source's `typeof x === 'number' ? x : parseInt(x, 10)` coercions are
  identities in the typed model.
* Store writes performed by the dispatcher are modelled by an oracle saying
  which writes succeed, and the dispatcher returns the ordered trace of
  effects it issued together with its result (`Except` models a JS throw).
* Each decision endpoint is a pure function from the state snapshot it read
  to the outcome it returns plus the reservation-queue write it performs.
-/

/-- JavaScript `a || b` on strings: the empty string is falsy. -/
def jsOr (a b : String) : String := if a == "" then b else a

/-- Reservation entry as stored in `system/feeder/reservations`
(src/app/api/reservations/create/route.js, `newReservation`). -/
structure Reservation where
  user : String
  userEmail : Option String
  deviceId : Option String
  scheduledTime : Nat
  createdAt : Nat
deriving DecidableEq, Repr

/-- Device telemetry snapshot at `system/device`; also the shape of the
optional `deviceData` argument of `isDeviceOnline` (absent fields are
`none`, matching `deviceData?.uptime || 0` and `deviceData?.wifi ||
'disconnected'`). -/
structure DeviceData where
  lastSeen : Option Nat := none
  uptime : Option Nat := none
  wifi : Option String := none
deriving DecidableEq, Repr

/-- The default `deviceData = {}` of `isDeviceOnline`. -/
def DeviceData.empty : DeviceData := {}

/-- The `timer` node of the feeder state. -/
structure Timer where
  hour : Option Nat := none
  minute : Option Nat := none
  noFeedDay : Option Int := none
deriving DecidableEq, Repr

/-- The `priority` node of the feeder state. -/
structure Priority where
  autoFeedDelayMinutes : Option Nat := none
deriving DecidableEq, Repr

/-- Snapshot of `system/feeder` as read by the route handlers. -/
structure FeederData where
  status : Nat := 0
  lastFeedTime : Option Nat := none
  timer : Timer := {}
  priority : Priority := {}
  reservations : List Reservation := []
deriving DecidableEq, Repr

/-- feeder.js `isFastingDay(noFeedDay)`: null (or undefined), negative and
greater-than-6 values never match; otherwise compare with today's weekday. -/
def isFastingDay (noFeedDay : Option Int) (today : Nat) : Bool :=
  match noFeedDay with
  | none => false
  | some d => if d < 0 || d > 6 then false else (today : Int) == d

/-- feeder.js `isDeviceOnline(lastSeen, deviceData = {})`.  `nowSeconds` is
`Math.floor(Date.now() / 1000)`.  A missing or zero `lastSeen` falls back to
the uptime/wifi heuristic; otherwise values above 10000000000 are taken to be
milliseconds and divided by 1000, and the device is online when the
difference to `nowSeconds` is below two minutes (120 seconds). -/
def isDeviceOnline (lastSeen : Option Nat) (deviceData : DeviceData)
    (nowSeconds : Nat) : Bool :=
  let fallback :=
    let uptime := deviceData.uptime.getD 0
    let wifi := jsOr (deviceData.wifi.getD "") "disconnected"
    uptime > 0 && wifi == "connected"
  match lastSeen with
  | none => fallback
  | some v =>
    if v == 0 then fallback
    else
      let lastSeenSeconds := if v > 10000000000 then v / 1000 else v
      let timeDiff : Int := (nowSeconds : Int) - (lastSeenSeconds : Int)
      timeDiff < 120

/-- feeder.js `calculateCooldownMs(timerHour, timerMinute)`. -/
def calculateCooldownMs (timerHour timerMinute : Nat) : Nat :=
  timerHour * 3600000 + timerMinute * 60000

/-- Minimum valid epoch: Jan 1, 2000 in milliseconds. -/
def MIN_VALID_EPOCH : Nat := 946684800000

/-- feeder.js `isValidLastFeedTime(lastFeedTime)`. -/
def isValidLastFeedTime (lastFeedTime : Nat) : Bool :=
  if lastFeedTime == 0 then true
  else lastFeedTime ≥ MIN_VALID_EPOCH

/-- feeder.js `canFeed(lastFeedTime, cooldownMs)`; `now` is `Date.now()`. -/
def canFeed (lastFeedTime cooldownMs now : Nat) : Bool :=
  if lastFeedTime == 0 then true
  else if !isValidLastFeedTime lastFeedTime then true
  else now ≥ lastFeedTime + cooldownMs

/-- feeder.js `calculateScheduledTime(reservations, lastFeedTime, cooldownMs)`. -/
def calculateScheduledTime (reservations : List Reservation)
    (lastFeedTime cooldownMs now : Nat) : Nat :=
  match reservations.getLast? with
  | some lastReservation => lastReservation.scheduledTime + cooldownMs
  | none => max now (lastFeedTime + cooldownMs)

/-- The defensive filter `reservations.filter(r => r && r.scheduledTime)`
used by every route: entries with a falsy (zero) `scheduledTime` are
dropped (null slots are unrepresentable in the typed list). -/
def validReservations (reservations : List Reservation) : List Reservation :=
  reservations.filter (fun r => r.scheduledTime ≠ 0)

/-- The identity predicate shared by the create and cancel routes:
`(deviceId && r.deviceId === deviceId) || (userEmail && r.userEmail ===
userEmail)`; a present-but-empty string is falsy, hence never matches. -/
def identityMatches (deviceId userEmail : Option String) (r : Reservation) : Bool :=
  (deviceId.any fun d => d ≠ "" && r.deviceId == some d) ||
  (userEmail.any fun e => e ≠ "" && r.userEmail == some e)

/-- The corrupt-timestamp normalization performed inline by every route
before using `lastFeedTime`: a nonzero value below the epoch floor is
replaced with the current time (API_LOGIC.md Rule 5, "Use current time if
invalid"). -/
def normalizeLastFeedTime (lastFeedTime0 now : Nat) : Nat :=
  if lastFeedTime0 < MIN_VALID_EPOCH && lastFeedTime0 > 0 then now
  else lastFeedTime0

/-- The store writes issued by feeder.js `triggerFeed`. -/
inductive WriteOp where
  | lastFeedTime
  | lastFeedDetail
  | status
  | history
deriving DecidableEq, Repr

/-- Effects issued by the dispatcher and its notification helpers, recorded
in issuing order with the success reported by the store/channel. -/
inductive Event where
  | write (op : WriteOp) (success : Bool)
  | notify (success : Bool)
deriving DecidableEq, Repr

/-- Oracle for the external store/channel: which operations succeed. -/
structure StoreOracle where
  ok : WriteOp → Bool
  notifyOk : Bool := true

/-- The value returned by a successful `triggerFeed` (the denormalized
calendar fields are display-only and elided). -/
structure FeedResult where
  timestampMs : Nat
deriving DecidableEq, Repr

/-- feeder.js `triggerFeed`: first the awaited `lastFeedTime` write (a
failure throws and nothing further is issued); then the `lastFeed` detail
and `status` writes are issued together via `Promise.all` (a failure of
either is rethrown after both were issued); then the detached best-effort
history append, whose failure is only logged.  Returns the issued trace and
the result (`Except.error` models a thrown error). -/
def triggerFeed (oracle : StoreOracle) (now : Nat) :
    List Event × Except Unit FeedResult :=
  let e1 := Event.write .lastFeedTime (oracle.ok .lastFeedTime)
  if oracle.ok .lastFeedTime = false then
    ([e1], .error ())
  else
    let e2 := Event.write .lastFeedDetail (oracle.ok .lastFeedDetail)
    let e3 := Event.write .status (oracle.ok .status)
    if oracle.ok .lastFeedDetail = false || oracle.ok .status = false then
      ([e1, e2, e3], .error ())
    else
      let e4 := Event.write .history (oracle.ok .history)
      ([e1, e2, e3, e4], .ok ⟨now⟩)

/-- feeder.js `sendFeedExecutedMessage`: the Telegram send is wrapped in a
try/catch that never rethrows, so the helper succeeds regardless of the
channel outcome. -/
def sendFeedExecutedMessage (oracle : StoreOracle) :
    List Event × Except Unit Unit :=
  ([Event.notify oracle.notifyOk], .ok ())

/-- The recompute loop shared by the cancel route and the cron reservation
branch: each remaining reservation gets `Math.max(now, current)` and the
anchor advances by one cooldown. -/
def recalcReservations (current cooldownMs now : Nat) :
    List Reservation → List Reservation
  | [] => []
  | r :: rest =>
    let scheduledTime := max now current
    { r with scheduledTime := scheduledTime } ::
      recalcReservations (scheduledTime + cooldownMs) cooldownMs now rest

/-- Outcome of the periodic cron decision engine
(src/app/api/cron/execute/route.js, first POST): a `type: none` response
with its reason, a reservation feed (with the recomputed queue written
back), or an unattended timer feed. -/
inductive CronAction where
  | noFeed (reason : String)
  | reservationFeed (user : String) (newQueue : List Reservation)
  | timerFeed
deriving DecidableEq, Repr

/-- The periodic decision engine, src/app/api/cron/execute/route.js (POST).
Guards in source order: fasting day, device online (no deviceData is passed
to `isDeviceOnline` here), status, corrupt-timestamp normalization, cooldown;
then the ready-reservation selection (filter `scheduledTime <= now`, sort
ascending by `createdAt`, take the first) and otherwise the auto-feed
check. -/
def cronExecute (fd : FeederData) (device : DeviceData) (today now : Nat) :
    CronAction :=
  if isFastingDay fd.timer.noFeedDay today then .noFeed "fasting_day"
  else if !isDeviceOnline device.lastSeen DeviceData.empty (now / 1000) then
    .noFeed "device_offline"
  else if fd.status == 1 then .noFeed "already_feeding"
  else
    let lastFeedTime0 := fd.lastFeedTime.getD 0
    let timerHour := fd.timer.hour.getD 0
    let timerMinute := fd.timer.minute.getD 0
    let cooldownMs := calculateCooldownMs timerHour timerMinute
    let lastFeedTime := normalizeLastFeedTime lastFeedTime0 now
    if !canFeed lastFeedTime cooldownMs now then .noFeed "cooldown_active"
    else
      let valid := validReservations fd.reservations
      let readyReservations :=
        (valid.filter fun r => r.scheduledTime ≤ now).mergeSort
          fun a b => a.createdAt ≤ b.createdAt
      match readyReservations with
      | reservation :: _ =>
        let reservationUser := jsOr reservation.user "unknown"
        let timestampMs := now
        let updatedReservations :=
          valid.filter fun r => r.createdAt ≠ reservation.createdAt
        let recalculatedReservations :=
          recalcReservations (timestampMs + cooldownMs) cooldownMs now
            updatedReservations
        .reservationFeed reservationUser recalculatedReservations
      | [] =>
        if valid.length == 0 then
          let delay0 := fd.priority.autoFeedDelayMinutes.getD 0
          let autoFeedDelayMinutes := if delay0 == 0 then 30 else delay0
          let autoFeedDelayMs := autoFeedDelayMinutes * 60000
          let cooldownEndTime :=
            if lastFeedTime == 0 || lastFeedTime < MIN_VALID_EPOCH then now
            else lastFeedTime + cooldownMs
          let autoFeedTime := cooldownEndTime + autoFeedDelayMs
          if now ≥ autoFeedTime then .timerFeed
          else .noFeed "no_feed_needed"
        else .noFeed "no_feed_needed"

/-- Outcome of the auto-feed cron variant (second POST in
src/app/api/cron/execute/route.js). -/
inductive AutoFeedOutcome where
  | rejected (reason : String)
  | executed (feedTime : Nat)
deriving DecidableEq, Repr

/-- The auto-feed cron variant (second POST in
src/app/api/cron/execute/route.js).  Same guards 1 to 4; rejects when any
valid reservation exists; then requires the auto-feed delay after cooldown
end to have passed.  This variant passes the device snapshot to
`isDeviceOnline`, enabling the uptime/wifi fallback. -/
def autoFeedCron (fd : FeederData) (device : DeviceData) (today now : Nat) :
    AutoFeedOutcome :=
  if isFastingDay fd.timer.noFeedDay today then .rejected "FASTING_DAY"
  else if !isDeviceOnline device.lastSeen device (now / 1000) then
    .rejected "DEVICE_OFFLINE"
  else if fd.status == 1 then .rejected "ALREADY_FEEDING"
  else
    let lastFeedTime0 := fd.lastFeedTime.getD 0
    let timerHour := fd.timer.hour.getD 0
    let timerMinute := fd.timer.minute.getD 0
    let cooldownMs := calculateCooldownMs timerHour timerMinute
    let lastFeedTime := normalizeLastFeedTime lastFeedTime0 now
    if !canFeed lastFeedTime cooldownMs now then .rejected "COOLDOWN_ACTIVE"
    else if (validReservations fd.reservations).length > 0 then
      .rejected "RESERVATIONS_EXIST"
    else
      let delay0 := fd.priority.autoFeedDelayMinutes.getD 0
      let autoFeedDelayMinutes := if delay0 == 0 then 30 else delay0
      let autoFeedDelayMs := autoFeedDelayMinutes * 60000
      let validLastFeedTime :=
        if lastFeedTime ≠ 0 && lastFeedTime > MIN_VALID_EPOCH then lastFeedTime
        else now
      let cooldownEndsAt := validLastFeedTime + cooldownMs
      let autoFeedTime := cooldownEndsAt + autoFeedDelayMs
      if now < autoFeedTime then .rejected "AUTO_FEED_DELAY_NOT_PASSED"
      else .executed now

/-- Outcome of the operator-initiated feed (src/app/api/feed/manual/route.js). -/
inductive ManualOutcome where
  | error (code : String)
  | success (user : String)
deriving DecidableEq, Repr

/-- The operator-initiated feed, src/app/api/feed/manual/route.js (POST).
Guards 1 to 4 as in the cron engine (again without deviceData for the
online check), then a rejection whenever any valid reservation exists.  The
route never writes the reservations path, so the stored queue is returned
unchanged as the second component. -/
def manualFeed (fd : FeederData) (device : DeviceData) (user : String)
    (userEmail : Option String) (today now : Nat) :
    ManualOutcome × List Reservation :=
  let result : ManualOutcome :=
    if isFastingDay fd.timer.noFeedDay today then .error "FASTING_DAY"
    else if !isDeviceOnline device.lastSeen DeviceData.empty (now / 1000) then
      .error "DEVICE_OFFLINE"
    else if fd.status == 1 then .error "ALREADY_FEEDING"
    else
      let lastFeedTime0 := fd.lastFeedTime.getD 0
      let timerHour := fd.timer.hour.getD 0
      let timerMinute := fd.timer.minute.getD 0
      let cooldownMs := calculateCooldownMs timerHour timerMinute
      let lastFeedTime := normalizeLastFeedTime lastFeedTime0 now
      if !canFeed lastFeedTime cooldownMs now then .error "COOLDOWN_ACTIVE"
      else if (validReservations fd.reservations).length > 0 then
        .error "RESERVATIONS_EXIST"
      else .success (jsOr user (jsOr (userEmail.getD "") "Visitor"))
  (result, fd.reservations)

/-- Outcome of the create-reservation route. -/
inductive EnqueueResult where
  | fastingDay
  | existing (r : Reservation) (position : Nat)
  | queueFull
  | invalidSchedule
  | created (r : Reservation) (position : Nat)
deriving DecidableEq, Repr

/-- The enqueue operation, src/app/api/reservations/create/route.js (POST).
Fasting-day rejection first; then the idempotent identity lookup (returning
the existing entry and its 1-based position without writing); then the
20-entry limit; then the schedule computation with corrupt-timestamp
normalization and the strictly-in-the-future check; finally the append.
Second component: the reservations array as stored after the call. -/
def createReservation (fd : FeederData) (user : String)
    (userEmail deviceId : Option String) (today now : Nat) :
    EnqueueResult × List Reservation :=
  if isFastingDay fd.timer.noFeedDay today then (.fastingDay, fd.reservations)
  else
    let valid := validReservations fd.reservations
    match valid.find? (identityMatches deviceId userEmail) with
    | some existingReservation =>
      let position := valid.findIdx (identityMatches deviceId userEmail) + 1
      (.existing existingReservation position, fd.reservations)
    | none =>
      if valid.length ≥ 20 then (.queueFull, fd.reservations)
      else
        let lastFeedTime0 := fd.lastFeedTime.getD 0
        let timerHour := fd.timer.hour.getD 0
        let timerMinute := fd.timer.minute.getD 0
        let cooldownMs := calculateCooldownMs timerHour timerMinute
        let lastFeedTime := normalizeLastFeedTime lastFeedTime0 now
        let scheduledTime := calculateScheduledTime valid lastFeedTime cooldownMs now
        if scheduledTime ≤ now then (.invalidSchedule, fd.reservations)
        else
          let newReservation : Reservation :=
            { user := jsOr user (jsOr (userEmail.getD "") "Visitor")
              userEmail := userEmail
              deviceId := deviceId
              scheduledTime := scheduledTime
              createdAt := now }
          let updatedReservations := valid ++ [newReservation]
          (.created newReservation updatedReservations.length, updatedReservations)

/-- Outcome of the cancel-reservation route. -/
inductive CancelResult where
  | missingParams
  | notFound
  | cancelled (removed : Reservation)
deriving DecidableEq, Repr

/-- The cancel operation, src/app/api/reservations/cancel/route.js
(DELETE): find the first identity match, remove it by index, and recompute
the remaining schedules anchored at the (normalized) `lastFeedTime` plus one
cooldown.  Second component: the reservations array as stored after the
call. -/
def cancelReservation (fd : FeederData) (deviceId userEmail : Option String)
    (now : Nat) : CancelResult × List Reservation :=
  if deviceId = none ∧ userEmail = none then (.missingParams, fd.reservations)
  else
    let valid := validReservations fd.reservations
    match valid.find? (identityMatches deviceId userEmail) with
    | none => (.notFound, fd.reservations)
    | some removedReservation =>
      let reservationIndex := valid.findIdx (identityMatches deviceId userEmail)
      let updatedReservations := valid.eraseIdx reservationIndex
      let lastFeedTime0 := fd.lastFeedTime.getD 0
      let timerHour := fd.timer.hour.getD 0
      let timerMinute := fd.timer.minute.getD 0
      let cooldownMs := calculateCooldownMs timerHour timerMinute
      let lastFeedTime := normalizeLastFeedTime lastFeedTime0 now
      let recalculatedReservations :=
        recalcReservations (lastFeedTime + cooldownMs) cooldownMs now
          updatedReservations
      (.cancelled removedReservation, recalculatedReservations)

/-- The recompute invariant as it actually holds of the recompute loop:
every recomputed entry is scheduled at or after `now`, the schedule is
non-decreasing in queue order, and it is strictly increasing whenever the
configured cooldown is positive. -/
def recomputeInvariant (cooldownMs now : Nat) (q : List Reservation) : Prop :=
  (∀ r ∈ q, now ≤ r.scheduledTime) ∧
  List.Pairwise (fun a b => a.scheduledTime ≤ b.scheduledTime) q ∧
  (0 < cooldownMs →
    List.Pairwise (fun a b => a.scheduledTime < b.scheduledTime) q)

/-- Shorthand for the cooldown a route computes from a feeder snapshot. -/
def cooldownOf (fd : FeederData) : Nat :=
  calculateCooldownMs (fd.timer.hour.getD 0) (fd.timer.minute.getD 0)

/-- A representative current instant (November 2023, well above the epoch
floor), used by the concrete counterexamples and witnesses. -/
def testNow : Nat := 1700000000000

/-- A device snapshot whose heartbeat is current at `testNow`. -/
def onlineDevice : DeviceData := { lastSeen := some (testNow / 1000) }

/-- A device snapshot last seen 90 seconds before `testNow`. -/
def staleDevice : DeviceData := { lastSeen := some (testNow / 1000 - 90) }

/-- A feeder snapshot whose actuator flag reads Dispensing. -/
def fdDispensing : FeederData := { status := 1 }

/-- A stored queue entry with the falsy scheduled time 0 (oldest creation). -/
def resZeroSched : Reservation :=
  { user := "a", userEmail := none, deviceId := none,
    scheduledTime := 0, createdAt := 1 }

/-- A stored queue entry that is eligible at `testNow` (younger creation). -/
def resEligible : Reservation :=
  { user := "b", userEmail := none, deviceId := none,
    scheduledTime := 946684800001, createdAt := 2 }

/-- Feeder snapshot whose queue holds a zero-scheduled entry ahead (by
creation time) of an eligible one. -/
def fdZeroSched : FeederData := { reservations := [resZeroSched, resEligible] }

/-- Feeder snapshot with a corrupt (pre-2000, nonzero) last-feed timestamp
and a one-hour cooldown. -/
def fdCorrupt : FeederData :=
  { lastFeedTime := some 1000, timer := { hour := some 1 } }

/-- Store oracle on which exactly the status write fails. -/
def oracleStatusFails : StoreOracle := { ok := fun op => !(op == WriteOp.status) }

/-- Store oracle on which every operation succeeds. -/
def oracleAllOk : StoreOracle := { ok := fun _ => true }

/-- Store oracle on which every write fails. -/
def oracleAllFail : StoreOracle := { ok := fun _ => false }

/-- Three distinct-identity reservations for the recompute counterexample. -/
def resD1 : Reservation :=
  { user := "u1", userEmail := none, deviceId := some "d1",
    scheduledTime := 946684800001, createdAt := 1 }

/-- Second reservation of the recompute counterexample. -/
def resD2 : Reservation :=
  { user := "u2", userEmail := none, deviceId := some "d2",
    scheduledTime := 946684800002, createdAt := 2 }

/-- Third reservation of the recompute counterexample. -/
def resD3 : Reservation :=
  { user := "u3", userEmail := none, deviceId := some "d3",
    scheduledTime := 946684800003, createdAt := 3 }

/-- Feeder snapshot with three queued reservations and a zero cooldown. -/
def fdThreeQueued : FeederData := { reservations := [resD1, resD2, resD3] }

/-- Feeder snapshot fed one second before `testNow` with a one-hour
cooldown, so a freshly computed reservation schedule lies in the future. -/
def fdRecentFeed : FeederData :=
  { lastFeedTime := some (testNow - 1000), timer := { hour := some 1 } }

/-- The reservation the enqueue fixture creates on `fdRecentFeed`. -/
def createdRes : Reservation :=
  { user := "Bob", userEmail := none, deviceId := some "dev1",
    scheduledTime := testNow + 3599000, createdAt := testNow }

/-- Feeder snapshot whose queue is non-empty but holds only a
zero-scheduled (hence filtered-out) entry. -/
def fdInvalidQueue : FeederData := { reservations := [resZeroSched] }

/-- Feeder snapshot with an out-of-range fasting-day configuration. -/
def fdBadFasting : FeederData := { timer := { noFeedDay := some 9 } }

/-- Older reservation (creation time 10) with a valid eligible schedule. -/
def resOld : Reservation :=
  { user := "old", userEmail := none, deviceId := none,
    scheduledTime := 946684800010, createdAt := 10 }

/-- Younger reservation (creation time 20) with a valid eligible schedule. -/
def resYoung : Reservation :=
  { user := "young", userEmail := none, deviceId := none,
    scheduledTime := 946684800020, createdAt := 20 }

/-- Feeder snapshot storing the younger reservation ahead of the older one. -/
def fdOutOfOrder : FeederData := { reservations := [resYoung, resOld] }

/-- The queue state after the enqueue fixture ran once on `fdRecentFeed`. -/
def fdWithRes : FeederData := { fdRecentFeed with reservations := [createdRes] }

/-- A stored reservation for identity dev1 with the falsy scheduled time 0. -/
def resZeroIdent : Reservation :=
  { user := "Zed", userEmail := none, deviceId := some "dev1",
    scheduledTime := 0, createdAt := 5 }

/-- The recently-fed snapshot whose queue holds only `resZeroIdent`. -/
def fdZeroIdent : FeederData :=
  { fdRecentFeed with reservations := [resZeroIdent] }

/-- Every entry produced by the recompute loop is scheduled at or after both
the floor instant and the running anchor. -/
theorem recalcReservations_ge (cooldownMs now : Nat) :
    ∀ (rs : List Reservation) (current : Nat),
      ∀ r ∈ recalcReservations current cooldownMs now rs,
        now ≤ r.scheduledTime ∧ current ≤ r.scheduledTime := by
  intro rs
  induction rs with
  | nil => intro current r hr; simp [recalcReservations] at hr
  | cons a rest ih =>
    intro current r hr
    simp only [recalcReservations, List.mem_cons] at hr
    rcases hr with h | h
    · subst h
      exact ⟨Nat.le_max_left _ _, Nat.le_max_right _ _⟩
    · have h2 := ih (max now current + cooldownMs) r h
      refine ⟨h2.1, ?_⟩
      calc current ≤ max now current := Nat.le_max_right _ _
        _ ≤ max now current + cooldownMs := Nat.le_add_right _ _
        _ ≤ r.scheduledTime := h2.2

/-- Successive entries produced by the recompute loop are at least one
cooldown apart. -/
theorem recalcReservations_pairwise (cooldownMs now : Nat) :
    ∀ (rs : List Reservation) (current : Nat),
      List.Pairwise (fun a b => a.scheduledTime + cooldownMs ≤ b.scheduledTime)
        (recalcReservations current cooldownMs now rs) := by
  intro rs
  induction rs with
  | nil => intro current; simp [recalcReservations]
  | cons a rest ih =>
    intro current
    simp only [recalcReservations]
    refine List.Pairwise.cons ?_ (ih _)
    intro b hb
    have h2 := recalcReservations_ge cooldownMs now rest (max now current + cooldownMs) b hb
    simpa using h2.2

/-- The recompute loop establishes the recompute invariant from any start. -/
theorem recomputeInvariant_recalc (cooldownMs now current : Nat)
    (rs : List Reservation) :
    recomputeInvariant cooldownMs now (recalcReservations current cooldownMs now rs) := by
  refine ⟨fun r hr => (recalcReservations_ge cooldownMs now rs current r hr).1, ?_, ?_⟩
  · exact (recalcReservations_pairwise cooldownMs now rs current).imp
      (fun h => le_trans (Nat.le_add_right _ _) h)
  · intro hcd
    exact (recalcReservations_pairwise cooldownMs now rs current).imp
      (fun h => lt_of_lt_of_le (Nat.lt_add_of_pos_right hcd) h)

/-- A successful linear search returns the first match: the element sits at
the index reported by findIdx and nothing before it matches. -/
theorem find?_position {α : Type} (p : α → Bool) :
    ∀ (l : List α) (r : α), l.find? p = some r →
      p r = true ∧ l[l.findIdx p]? = some r ∧
      ∀ j < l.findIdx p, ∀ x, l[j]? = some x → p x = false := by
  intro l
  induction l with
  | nil => intro r h; simp at h
  | cons a rest ih =>
    intro r h
    rw [List.find?_cons] at h
    cases hpa : p a with
    | true =>
      rw [hpa] at h
      simp only at h
      cases h
      refine ⟨hpa, ?_, ?_⟩
      · simp [List.findIdx_cons, hpa]
      · intro j hj x hx
        simp [List.findIdx_cons, hpa] at hj
    | false =>
      rw [hpa] at h
      simp only at h
      have h2 := ih r h
      refine ⟨h2.1, ?_, ?_⟩
      · simp [List.findIdx_cons, hpa, h2.2.1]
      · intro j hj x hx
        simp only [List.findIdx_cons, hpa, cond_false] at hj
        cases j with
        | zero => simp at hx; cases hx; exact hpa
        | succ k =>
          simp only [List.getElem?_cons_succ] at hx
          exact h2.2.2 k (by omega) x hx

/-- When the search fails, findIdx reports the length of the list. -/
theorem findIdx_of_find?_none {α : Type} (p : α → Bool) :
    ∀ (l : List α), l.find? p = none → l.findIdx p = l.length := by
  intro l
  induction l with
  | nil => intro h; simp
  | cons a rest ih =>
    intro h
    rw [List.find?_cons] at h
    cases hpa : p a with
    | true => rw [hpa] at h; simp at h
    | false =>
      rw [hpa] at h
      simp only at h
      simp [List.findIdx_cons, hpa, ih h]

/-- Searching an append skips a prefix with no match. -/
theorem find?_append_left_none {α : Type} (p : α → Bool) (l₁ l₂ : List α)
    (h : l₁.find? p = none) : (l₁ ++ l₂).find? p = l₂.find? p := by
  rw [List.find?_append, h, Option.none_or]

/-- Index search on an append skips a prefix with no match. -/
theorem findIdx_append_left_none {α : Type} (p : α → Bool) (l₁ l₂ : List α)
    (h : l₁.find? p = none) :
    (l₁ ++ l₂).findIdx p = l₂.findIdx p + l₁.length := by
  rw [List.findIdx_append, findIdx_of_find?_none p l₁ h]
  simp

/-- Claim C10 (confirmed): an out-of-range fasting-day configuration (null,
negative, or greater than 6) makes the fasting predicate false, so none of
the entry points (periodic check, auto-feed variant, manual feed, enqueue)
ever rejects with the fasting-day outcome under such a configuration. -/
theorem malformed_fasting_never_blocks (d : Option Int) (fd : FeederData)
    (device : DeviceData) (user : String) (userEmail deviceId : Option String)
    (today now : Nat)
    (hd : d = none ∨ ∃ v, d = some v ∧ (v < 0 ∨ v > 6))
    (hfd : fd.timer.noFeedDay = d) :
    isFastingDay d today = false ∧
    cronExecute fd device today now ≠ .noFeed "fasting_day" ∧
    autoFeedCron fd device today now ≠ .rejected "FASTING_DAY" ∧
    (manualFeed fd device user userEmail today now).1 ≠ .error "FASTING_DAY" ∧
    (createReservation fd user userEmail deviceId today now).1 ≠ .fastingDay := by
  have hfalse : isFastingDay d today = false := by
    rcases hd with h | ⟨v, hv, hrange⟩
    · subst h; rfl
    · subst hv
      simp only [isFastingDay]
      have : (decide (v < 0) || decide (v > 6)) = true := by
        rcases hrange with h | h <;> simp [h]
      simp [this]
  refine ⟨hfalse, ?_, ?_, ?_, ?_⟩
  · simp only [cronExecute, hfd, hfalse, Bool.false_eq_true, if_false]
    repeat first
    | simp
    | split
  · simp only [autoFeedCron, hfd, hfalse, Bool.false_eq_true, if_false]
    repeat first
    | simp
    | split
  · simp only [manualFeed, hfd, hfalse, Bool.false_eq_true, if_false]
    repeat first
    | simp
    | split
  · simp only [createReservation, hfd, hfalse, Bool.false_eq_true, if_false]
    repeat first
    | simp
    | split

/-- Witness for claim C10 at the concrete configuration noFeedDay = 9. -/
theorem malformed_fasting_never_blocks_witness :
    isFastingDay (some 9) 3 = false ∧
    cronExecute fdBadFasting onlineDevice 3 testNow ≠ .noFeed "fasting_day" ∧
    autoFeedCron fdBadFasting onlineDevice 3 testNow ≠ .rejected "FASTING_DAY" ∧
    (manualFeed fdBadFasting onlineDevice "Bob" none 3 testNow).1 ≠ .error "FASTING_DAY" ∧
    (createReservation fdBadFasting "Bob" none (some "dev1") 3 testNow).1 ≠ .fastingDay :=
  malformed_fasting_never_blocks (some 9) fdBadFasting onlineDevice "Bob" none
    (some "dev1") 3 testNow (Or.inr ⟨9, rfl, Or.inr (by decide)⟩) rfl

/-- Claim C1 (amended): whenever the feeder status reads Dispensing (wire
value 1), no entry point dispatches any feed, regardless of every other
state value; and the already_feeding rejection is the one returned whenever
the two guards evaluated earlier (fasting day and device online) pass. -/
theorem dispensing_never_dispatches (fd : FeederData) (device : DeviceData)
    (user : String) (userEmail : Option String) (today now : Nat)
    (hst : fd.status = 1) :
    (∀ u q, cronExecute fd device today now ≠ .reservationFeed u q) ∧
    cronExecute fd device today now ≠ .timerFeed ∧
    (∀ t, autoFeedCron fd device today now ≠ .executed t) ∧
    (∀ u, (manualFeed fd device user userEmail today now).1 ≠ .success u) ∧
    (isFastingDay fd.timer.noFeedDay today = false →
      (isDeviceOnline device.lastSeen DeviceData.empty (now / 1000) = true →
        cronExecute fd device today now = .noFeed "already_feeding" ∧
        (manualFeed fd device user userEmail today now).1 = .error "ALREADY_FEEDING") ∧
      (isDeviceOnline device.lastSeen device (now / 1000) = true →
        autoFeedCron fd device today now = .rejected "ALREADY_FEEDING")) := by
  refine ⟨?_, ?_, ?_, ?_, ?_⟩
  · intro u q
    simp only [cronExecute, hst]
    repeat first
    | simp
    | split
  · simp only [cronExecute, hst]
    repeat first
    | simp
    | split
  · intro t
    simp only [autoFeedCron, hst]
    repeat first
    | simp
    | split
  · intro u
    simp only [manualFeed, hst]
    repeat first
    | simp
    | split
  · intro hf
    refine ⟨fun ho => ⟨?_, ?_⟩, fun ho => ?_⟩
    · simp [cronExecute, hst, hf, ho]
    · simp [manualFeed, hst, hf, ho]
    · simp [autoFeedCron, hst, hf, ho]

/-- Counterexample to claim C1 as stated: with status Dispensing but the
device offline, the periodic check returns device_offline, not the claimed
already_feeding rejection (it still does not dispatch). -/
theorem dispensing_offline_counterexample :
    fdDispensing.status = 1 ∧
    cronExecute fdDispensing {} 0 testNow = .noFeed "device_offline" ∧
    cronExecute fdDispensing {} 0 testNow ≠ .noFeed "already_feeding" := by
  decide

/-- Witness for claim C1 with status Dispensing and an online device. -/
theorem dispensing_never_dispatches_witness :
    cronExecute fdDispensing onlineDevice 0 testNow = .noFeed "already_feeding" ∧
    (manualFeed fdDispensing onlineDevice "Bob" none 0 testNow).1 = .error "ALREADY_FEEDING" ∧
    autoFeedCron fdDispensing onlineDevice 0 testNow = .rejected "ALREADY_FEEDING" := by
  have h := (dispensing_never_dispatches fdDispensing onlineDevice "Bob" none 0
    testNow rfl).2.2.2.2 (by decide)
  exact ⟨(h.1 (by decide)).1, (h.1 (by decide)).2, h.2 (by decide)⟩

/-- Claim C2 (confirmed): in every dispatch in which the actuation request
(status write) is issued, the trace starts with a successful lastFeedTime
write and the status write occurs strictly after it; the status write is
never issued unless the lastFeedTime write succeeded. -/
theorem triggerFeed_status_after_timestamp (oracle : StoreOracle) (now : Nat)
    (b : Bool) (h : Event.write .status b ∈ (triggerFeed oracle now).1) :
    oracle.ok .lastFeedTime = true ∧
    ∃ rest, (triggerFeed oracle now).1 = Event.write .lastFeedTime true :: rest ∧
      Event.write .status b ∈ rest := by
  cases h1 : oracle.ok WriteOp.lastFeedTime with
  | false =>
    simp only [triggerFeed, h1] at h
    simp at h
  | true =>
    refine ⟨rfl, ?_⟩
    cases h2 : oracle.ok WriteOp.lastFeedDetail <;>
      cases h3 : oracle.ok WriteOp.status <;>
      simp only [triggerFeed, h1, h2, h3] at h ⊢ <;>
      simp at h ⊢ <;>
      exact h

/-- Witness for claim C2 on the all-successful store oracle. -/
theorem triggerFeed_status_after_timestamp_witness :
    oracleAllOk.ok .lastFeedTime = true ∧
    ∃ rest, (triggerFeed oracleAllOk 5).1 = Event.write .lastFeedTime true :: rest ∧
      Event.write .status true ∈ rest :=
  triggerFeed_status_after_timestamp oracleAllOk 5 true (by decide)

/-- Claim C5 (amended): a failed lastFeedTime write fails the whole dispatch
and no actuation request is ever issued; a completed lastFeedTime write is
not unwound by later failures; the dispatch succeeds whenever the
lastFeedTime, detail and status writes succeed, regardless of the history
append outcome; and the notification helper never propagates a failure.
(Contrary to the claim, the step-3 write failures are also fatal.) -/
theorem triggerFeed_failure_semantics (oracle : StoreOracle) (now : Nat) :
    (oracle.ok .lastFeedTime = false →
      (triggerFeed oracle now).2 = .error () ∧
      ∀ b, Event.write .status b ∉ (triggerFeed oracle now).1) ∧
    (oracle.ok .lastFeedTime = true →
      Event.write .lastFeedTime true ∈ (triggerFeed oracle now).1) ∧
    (oracle.ok .lastFeedTime = true → oracle.ok .lastFeedDetail = true →
      oracle.ok .status = true → (triggerFeed oracle now).2 = .ok ⟨now⟩) ∧
    (sendFeedExecutedMessage oracle).2 = .ok () := by
  refine ⟨fun h1 => ⟨?_, ?_⟩, fun h1 => ?_, fun h1 h2 h3 => ?_, rfl⟩
  · simp [triggerFeed, h1]
  · intro b
    simp [triggerFeed, h1]
  · cases h2 : oracle.ok WriteOp.lastFeedDetail <;>
      cases h3 : oracle.ok WriteOp.status <;>
      simp [triggerFeed, h1, h2, h3]
  · simp [triggerFeed, h1, h2, h3]

/-- Counterexample to claim C5 as stated: when only the status write fails
(step 3), the dispatch operation fails, although the claim says step-3
failures are logged without failing the dispatch. -/
theorem triggerFeed_step3_failure_fatal :
    oracleStatusFails.ok .lastFeedTime = true ∧
    oracleStatusFails.ok .status = false ∧
    (triggerFeed oracleStatusFails 5).2 = Except.error () := by
  refine ⟨rfl, rfl, rfl⟩

/-- Witness for claim C5 on the all-failing and all-successful oracles. -/
theorem triggerFeed_failure_semantics_witness :
    ((triggerFeed oracleAllFail 5).2 = .error () ∧
      ∀ b, Event.write .status b ∉ (triggerFeed oracleAllFail 5).1) ∧
    Event.write .lastFeedTime true ∈ (triggerFeed oracleAllOk 5).1 ∧
    (triggerFeed oracleAllOk 5).2 = .ok ⟨5⟩ ∧
    (sendFeedExecutedMessage oracleAllOk).2 = .ok () :=
  ⟨(triggerFeed_failure_semantics oracleAllFail 5).1 rfl,
   (triggerFeed_failure_semantics oracleAllOk 5).2.1 rfl,
   (triggerFeed_failure_semantics oracleAllOk 5).2.2.1 rfl rfl rfl,
   (triggerFeed_failure_semantics oracleAllOk 5).2.2.2⟩

/-- Claim C4 (amended): the periodic check replaces a corrupt (nonzero,
below the 2000-01-01 floor) stored lastFeedInstant with the current
instant, so with guards 1 to 3 passing it returns the cooldown_active
rejection exactly when the configured cooldown is positive; only the pure
canFeed function treats a corrupt value as immediately feedable. -/
theorem cron_corrupt_timestamp_cooldown (fd : FeederData) (device : DeviceData)
    (today now t : Nat)
    (hfast : isFastingDay fd.timer.noFeedDay today = false)
    (honline : isDeviceOnline device.lastSeen DeviceData.empty (now / 1000) = true)
    (hstatus : fd.status ≠ 1)
    (ht : fd.lastFeedTime = some t) (ht0 : 0 < t) (htc : t < MIN_VALID_EPOCH)
    (hnow : MIN_VALID_EPOCH ≤ now) :
    (0 < cooldownOf fd →
      cronExecute fd device today now = .noFeed "cooldown_active") ∧
    (cooldownOf fd = 0 →
      cronExecute fd device today now ≠ .noFeed "cooldown_active") ∧
    canFeed t (cooldownOf fd) now = true := by
  have hminpos : 0 < MIN_VALID_EPOCH := by decide
  have hnorm : normalizeLastFeedTime t now = now := by
    simp only [normalizeLastFeedTime]
    have : (decide (t < MIN_VALID_EPOCH) && decide (t > 0)) = true := by
      simp [htc, ht0]
    simp [this]
  have hsb : (fd.status == 1) = false := by simp [hstatus]
  refine ⟨?_, ?_, ?_⟩
  · intro hcd
    have hcf : canFeed now (cooldownOf fd) now = false := by
      simp only [canFeed, isValidLastFeedTime]
      have h1 : (now == 0) = false := by simp; omega
      have h2 : (decide (MIN_VALID_EPOCH ≤ now)) = true := by simp [hnow]
      simp [h1, h2]
      omega
    simp [cronExecute, hfast, honline, hsb, ht, hnorm, cooldownOf] at hcf ⊢
    simp [hcf]
  · intro hcd
    have hcf : canFeed now (cooldownOf fd) now = true := by
      simp only [canFeed, isValidLastFeedTime]
      have h2 : (decide (MIN_VALID_EPOCH ≤ now)) = true := by simp [hnow]
      simp [h2, hcd]
    simp only [cronExecute, hfast, honline, hsb, ht, Option.getD_some] at *
    rw [hnorm] at *
    simp only [cooldownOf] at hcf
    simp [hcf]
    repeat first
    | simp
    | split
  · simp only [canFeed, isValidLastFeedTime]
    have h1 : (t == 0) = false := by simp; omega
    have h2 : (decide (MIN_VALID_EPOCH ≤ t)) = false := by simp; omega
    simp [h1, h2]

/-- Counterexample to claim C4 as stated: with the corrupt stored value
1000 and a one-hour cooldown, the periodic check returns cooldown_active,
although the claim says it never does so on a corrupt timestamp. -/
theorem corrupt_timestamp_counterexample :
    (0 < 1000 ∧ 1000 < MIN_VALID_EPOCH) ∧
    fdCorrupt.lastFeedTime = some 1000 ∧
    cronExecute fdCorrupt onlineDevice 0 testNow = .noFeed "cooldown_active" := by
  decide

/-- Witness for claim C4 at the corrupt-timestamp fixture. -/
theorem cron_corrupt_timestamp_cooldown_witness :
    cronExecute fdCorrupt onlineDevice 0 testNow = .noFeed "cooldown_active" ∧
    canFeed 1000 (cooldownOf fdCorrupt) testNow = true := by
  have h := cron_corrupt_timestamp_cooldown fdCorrupt onlineDevice 0 testNow 1000
    (by decide) (by decide) (by decide) rfl (by decide) (by decide) (by decide)
  exact ⟨h.1 (by decide), h.2.2⟩

/-- Claim C6 (amended): the device is considered online exactly when the
(unit-normalized) lastSeen is less than 120 seconds old, or, when lastSeen
is absent or zero, when the device data passed by the caller reports
positive uptime and connected wifi; the periodic check passes no device
data, so with lastSeen absent it returns device_offline regardless of
uptime and wifi; and a lastSeen 90 seconds old counts as online, so the
periodic check does not return device_offline then. -/
theorem online_threshold (v : Nat) (d : DeviceData) (ns : Nat)
    (fd : FeederData) (device : DeviceData) (today now s : Nat)
    (hfast : isFastingDay fd.timer.noFeedDay today = false) :
    (isDeviceOnline (some v) d ns = true ↔
      (v ≠ 0 ∧ (ns : Int) - (((if v > 10000000000 then v / 1000 else v) : Nat) : Int) < 120) ∨
      (v = 0 ∧ 0 < d.uptime.getD 0 ∧ jsOr (d.wifi.getD "") "disconnected" = "connected")) ∧
    (isDeviceOnline none d ns = true ↔
      0 < d.uptime.getD 0 ∧ jsOr (d.wifi.getD "") "disconnected" = "connected") ∧
    (device.lastSeen = none → cronExecute fd device today now = .noFeed "device_offline") ∧
    (device.lastSeen = some s → s ≠ 0 → s ≤ 10000000000 →
      s ≤ now / 1000 → now / 1000 - s = 90 →
      cronExecute fd device today now ≠ .noFeed "device_offline") := by
  refine ⟨?_, ?_, ?_, ?_⟩
  · by_cases hv : v = 0
    · subst hv
      simp [isDeviceOnline]
    · simp [isDeviceOnline, hv]
  · simp [isDeviceOnline]
  · intro hnone
    have hoff : isDeviceOnline device.lastSeen DeviceData.empty (now / 1000) = false := by
      simp [isDeviceOnline, hnone, DeviceData.empty, jsOr]
    simp [cronExecute, hfast, hoff]
  · intro hsome hs0 hsmall hsle hdiff
    have hon : isDeviceOnline device.lastSeen DeviceData.empty (now / 1000) = true := by
      have hle : ¬ (s > 10000000000) := by omega
      simp [isDeviceOnline, hsome, hs0, hle]
      omega
    simp only [cronExecute, hfast, hon, Bool.false_eq_true, if_false, Bool.not_true]
    repeat first
    | simp
    | split

/-- Counterexample to claim C6 as stated: a lastSeen 90 seconds old is
within the 120-second window used by the code, so the device is online and
the periodic check does not return the device_offline outcome the claim
requires. -/
theorem online_90s_counterexample :
    staleDevice.lastSeen = some (testNow / 1000 - 90) ∧
    isDeviceOnline staleDevice.lastSeen DeviceData.empty (testNow / 1000) = true ∧
    cronExecute ({} : FeederData) staleDevice 0 testNow ≠ .noFeed "device_offline" := by
  have hc : cronExecute ({} : FeederData) staleDevice 0 testNow = .noFeed "no_feed_needed" := by
    simp [cronExecute, isFastingDay, isDeviceOnline, staleDevice, testNow,
      DeviceData.empty, jsOr, canFeed, isValidLastFeedTime, validReservations,
      normalizeLastFeedTime, calculateCooldownMs, MIN_VALID_EPOCH]
  refine ⟨rfl, by decide, ?_⟩
  rw [hc]
  simp

/-- Witness for claim C6 at the 90-second-stale device fixture. -/
theorem online_threshold_witness :
    isDeviceOnline (some (testNow / 1000 - 90)) DeviceData.empty (testNow / 1000) = true ∧
    cronExecute ({} : FeederData) staleDevice 0 testNow ≠ .noFeed "device_offline" := by
  have h := online_threshold (testNow / 1000 - 90) DeviceData.empty (testNow / 1000)
    ({} : FeederData) staleDevice 0 testNow (testNow / 1000 - 90) rfl
  refine ⟨(h.1).mpr (Or.inl ⟨by decide, by decide⟩),
    h.2.2.2 rfl (by decide) (by decide) (by decide) (by decide)⟩

/-- Counterexample to claim C7 as stated: with a zero cooldown, cancelling
one of three queued reservations recomputes the two survivors to identical
scheduled instants, which is not strictly increasing. -/
theorem recompute_zero_cooldown_counterexample :
    cooldownOf fdThreeQueued = 0 ∧
    (cancelReservation fdThreeQueued (some "d1") none testNow).1 = .cancelled resD1 ∧
    ((cancelReservation fdThreeQueued (some "d1") none testNow).2.map
      (fun r => r.scheduledTime)) = [testNow, testNow] ∧
    ¬ List.Pairwise (fun a b => a.scheduledTime < b.scheduledTime)
      (cancelReservation fdThreeQueued (some "d1") none testNow).2 := by
  decide

/-- Claim C7 (amended): after every successful Cancel and after every
reservation dispatch of the periodic check, the recomputed queue satisfies:
every scheduled instant is at or after now, the schedule is non-decreasing
in queue order, and it is strictly increasing whenever the configured
cooldown is positive (with a zero cooldown, consecutive entries coincide). -/
theorem recompute_invariant_holds (fd : FeederData) (device : DeviceData)
    (deviceId userEmail : Option String) (today now : Nat) :
    (∀ r, (cancelReservation fd deviceId userEmail now).1 = .cancelled r →
      recomputeInvariant (cooldownOf fd) now
        (cancelReservation fd deviceId userEmail now).2) ∧
    (∀ u q, cronExecute fd device today now = .reservationFeed u q →
      recomputeInvariant (cooldownOf fd) now q) := by
  constructor
  · intro r hr
    unfold cancelReservation at hr ⊢
    by_cases h1 : (deviceId = none ∧ userEmail = none)
    · simp [h1] at hr
    · simp only [h1, if_false] at hr ⊢
      cases hfind : (validReservations fd.reservations).find?
          (identityMatches deviceId userEmail) with
      | none => rw [hfind] at hr; simp at hr
      | some removed =>
        exact recomputeInvariant_recalc _ _ _ _
  · intro u q hq
    simp only [cronExecute] at hq
    split at hq
    · simp at hq
    · split at hq
      · simp at hq
      · split at hq
        · simp at hq
        · split at hq
          · simp at hq
          · split at hq
            · next reservation tail heq =>
                simp only [CronAction.reservationFeed.injEq] at hq
                rw [← hq.2]
                exact recomputeInvariant_recalc _ _ _ _
            · next heq =>
                repeat first
                | simp at hq
                | split at hq

/-- Witness for claim C7: a concrete cancel and a concrete reservation
dispatch. -/
theorem recompute_invariant_holds_witness :
    recomputeInvariant (cooldownOf fdThreeQueued) testNow
      (cancelReservation fdThreeQueued (some "d1") none testNow).2 ∧
    recomputeInvariant (cooldownOf fdZeroSched) testNow [] :=
  ⟨(recompute_invariant_holds fdThreeQueued {} (some "d1") none 0 testNow).1
      resD1 (by decide),
   (recompute_invariant_holds fdZeroSched onlineDevice (some "d1") none 0
      testNow).2 "b" []
      (by simp [cronExecute, isFastingDay, isDeviceOnline, onlineDevice,
        fdZeroSched, resZeroSched, resEligible, testNow, DeviceData.empty, jsOr,
        canFeed, isValidLastFeedTime, validReservations, normalizeLastFeedTime,
        calculateCooldownMs, MIN_VALID_EPOCH, recalcReservations])⟩

/-- Counterexample to claim C9 as stated: a non-empty stored queue whose
only entry has the falsy scheduled time 0 is invisible to the manual-feed
route, so the operator feed succeeds although the claim requires the
ReservationsExist rejection for every non-empty queue. -/
theorem manual_invalid_queue_counterexample :
    fdInvalidQueue.reservations ≠ [] ∧
    isFastingDay fdInvalidQueue.timer.noFeedDay 0 = false ∧
    isDeviceOnline onlineDevice.lastSeen DeviceData.empty (testNow / 1000) = true ∧
    fdInvalidQueue.status ≠ 1 ∧
    canFeed (normalizeLastFeedTime (fdInvalidQueue.lastFeedTime.getD 0) testNow)
      (cooldownOf fdInvalidQueue) testNow = true ∧
    (manualFeed fdInvalidQueue onlineDevice "Bob" none 0 testNow).1 = .success "Bob" := by
  decide

/-- Claim C9 (amended): the operator-initiated feed never modifies the
reservation queue; whenever guards 1 to 4 pass and the queue holds at least
one entry with a nonzero scheduled time, it is rejected with
ReservationsExist and performs no dispatch; and an operator dispatch can
only happen when no such valid reservation exists. -/
theorem manual_reservations_preempt (fd : FeederData) (device : DeviceData)
    (user : String) (userEmail : Option String) (today now : Nat) :
    ((manualFeed fd device user userEmail today now).2 = fd.reservations) ∧
    (isFastingDay fd.timer.noFeedDay today = false →
      isDeviceOnline device.lastSeen DeviceData.empty (now / 1000) = true →
      fd.status ≠ 1 →
      canFeed (normalizeLastFeedTime (fd.lastFeedTime.getD 0) now)
        (cooldownOf fd) now = true →
      validReservations fd.reservations ≠ [] →
      (manualFeed fd device user userEmail today now).1 = .error "RESERVATIONS_EXIST") ∧
    (∀ u, (manualFeed fd device user userEmail today now).1 = .success u →
      validReservations fd.reservations = []) := by
  refine ⟨rfl, ?_, ?_⟩
  · intro hf ho hs hc hres
    have hsb : (fd.status == 1) = false := by simp [hs]
    have hlen : 0 < (validReservations fd.reservations).length :=
      List.length_pos.mpr hres
    simp only [cooldownOf] at hc
    simp [manualFeed, hf, ho, hsb, hc, hlen]
  · intro u hu
    by_contra hne
    have hlen : 0 < (validReservations fd.reservations).length :=
      List.length_pos.mpr hne
    simp only [manualFeed, hlen] at hu
    repeat first
    | simp at hu
    | split at hu

/-- Witness for claim C9 on a queue with three valid reservations. -/
theorem manual_reservations_preempt_witness :
    (manualFeed fdThreeQueued onlineDevice "Bob" none 0 testNow).1 =
      .error "RESERVATIONS_EXIST" :=
  (manual_reservations_preempt fdThreeQueued onlineDevice "Bob" none 0
    testNow).2.1 (by decide) (by decide) (by decide) (by decide) (by decide)

/-- Counterexample to claim C3 as stated: in a queue with distinct creation
times in which every entry has scheduledInstant at or before now, the entry
with the minimum createdInstant has the falsy scheduled time 0, is filtered
out, and the periodic check dispatches the younger entry instead. -/
theorem fifo_zero_schedule_counterexample :
    (fdZeroSched.reservations.map (fun r => r.createdAt)).Nodup ∧
    (∀ r ∈ fdZeroSched.reservations, r.scheduledTime ≤ testNow) ∧
    resZeroSched ∈ fdZeroSched.reservations ∧
    (∀ r ∈ fdZeroSched.reservations, resZeroSched.createdAt ≤ r.createdAt) ∧
    resZeroSched.user = "a" ∧
    cronExecute fdZeroSched onlineDevice 0 testNow = .reservationFeed "b" [] := by
  refine ⟨by decide, by decide, by decide, by decide, rfl, ?_⟩
  simp [cronExecute, isFastingDay, isDeviceOnline, onlineDevice, fdZeroSched,
    resZeroSched, resEligible, testNow, DeviceData.empty, jsOr, canFeed,
    isValidLastFeedTime, validReservations, normalizeLastFeedTime,
    calculateCooldownMs, MIN_VALID_EPOCH, recalcReservations]

/-- Claim C3 (amended): when guards 1 to 4 pass, every stored entry has a
nonzero scheduledInstant, and at least one entry is eligible
(scheduledInstant at or before now), the periodic check dispatches an
eligible reservation whose createdInstant is minimal among the eligible
ones — independent of storage order, and unique when creation times are
distinct — and writes back the recomputed remainder of the queue. -/
theorem cron_fifo (fd : FeederData) (device : DeviceData) (today now : Nat)
    (hfast : isFastingDay fd.timer.noFeedDay today = false)
    (honline : isDeviceOnline device.lastSeen DeviceData.empty (now / 1000) = true)
    (hstatus : fd.status ≠ 1)
    (hcool : canFeed (normalizeLastFeedTime (fd.lastFeedTime.getD 0) now)
      (cooldownOf fd) now = true)
    (hnz : ∀ r ∈ fd.reservations, r.scheduledTime ≠ 0)
    (hready : ∃ r ∈ fd.reservations, r.scheduledTime ≤ now) :
    ∃ r ∈ fd.reservations, r.scheduledTime ≤ now ∧
      (∀ x ∈ fd.reservations, x.scheduledTime ≤ now → r.createdAt ≤ x.createdAt) ∧
      cronExecute fd device today now =
        .reservationFeed (jsOr r.user "unknown")
          (recalcReservations (now + cooldownOf fd) (cooldownOf fd) now
            (fd.reservations.filter (fun x => x.createdAt ≠ r.createdAt))) := by
  have hvalid : validReservations fd.reservations = fd.reservations := by
    apply List.filter_eq_self.mpr
    intro a ha
    simpa using hnz a ha
  obtain ⟨r0, hr0mem, hr0le⟩ := hready
  have heligne :
      fd.reservations.filter (fun x => decide (x.scheduledTime ≤ now)) ≠ [] := by
    intro hnil
    have hmem : r0 ∈ fd.reservations.filter (fun x => decide (x.scheduledTime ≤ now)) := by
      simp [List.mem_filter, hr0mem, hr0le]
    rw [hnil] at hmem
    simp at hmem
  have hperm := List.mergeSort_perm
    (fd.reservations.filter (fun x => decide (x.scheduledTime ≤ now)))
    (fun a b => decide (a.createdAt ≤ b.createdAt))
  have hpair := @List.sorted_mergeSort Reservation
    (fun a b => decide (a.createdAt ≤ b.createdAt))
    (fun a b c h1 h2 => by simp at h1 h2 ⊢; omega)
    (fun a b => by simp; omega)
    (fd.reservations.filter (fun x => decide (x.scheduledTime ≤ now)))
  cases hs : (fd.reservations.filter (fun x => decide (x.scheduledTime ≤ now))).mergeSort
      (fun a b => decide (a.createdAt ≤ b.createdAt)) with
  | nil =>
    rw [hs] at hperm
    exact absurd hperm.symm.eq_nil heligne
  | cons r rest =>
    rw [hs] at hperm hpair
    have hrfil : r ∈ fd.reservations.filter (fun x => decide (x.scheduledTime ≤ now)) :=
      hperm.mem_iff.mp (by simp)
    have hrmem : r ∈ fd.reservations := (List.mem_filter.mp hrfil).1
    have hrle : r.scheduledTime ≤ now := by
      have := (List.mem_filter.mp hrfil).2
      simpa using this
    refine ⟨r, hrmem, hrle, ?_, ?_⟩
    · intro x hx hxle
      have hxfil : x ∈ fd.reservations.filter (fun y => decide (y.scheduledTime ≤ now)) := by
        simp [List.mem_filter, hx, hxle]
      have hxcons : x ∈ r :: rest := hperm.mem_iff.mpr hxfil
      rcases List.mem_cons.mp hxcons with h | h
      · subst h; exact le_refl _
      · have := (List.pairwise_cons.mp hpair).1 x h
        simpa using this
    · have hsb : (fd.status == 1) = false := by simp [hstatus]
      simp only [cooldownOf] at hcool ⊢
      simp only [cronExecute, hfast, Bool.false_eq_true, if_false, honline,
        Bool.not_true, hsb, hcool, Bool.not_false, if_true]
      rw [hvalid, hs]


/-- Witness for claim C3 on a queue stored in reverse creation order. -/
theorem cron_fifo_witness :
    ∃ r ∈ fdOutOfOrder.reservations, r.scheduledTime ≤ testNow ∧
      (∀ x ∈ fdOutOfOrder.reservations, x.scheduledTime ≤ testNow →
        r.createdAt ≤ x.createdAt) ∧
      cronExecute fdOutOfOrder onlineDevice 0 testNow =
        .reservationFeed (jsOr r.user "unknown")
          (recalcReservations (testNow + cooldownOf fdOutOfOrder)
            (cooldownOf fdOutOfOrder) testNow
            (fdOutOfOrder.reservations.filter (fun x => x.createdAt ≠ r.createdAt))) :=
  cron_fifo fdOutOfOrder onlineDevice 0 testNow (by decide) (by decide)
    (by decide) (by decide) (by decide) ⟨resOld, by decide, by decide⟩

/-- The defensive validity filter is idempotent. -/
theorem validReservations_idem (l : List Reservation) :
    validReservations (validReservations l) = validReservations l := by
  simp [validReservations, List.filter_filter]

/-- An enqueue against a queue formed by appending a matching reservation to
a match-free valid prefix returns that reservation with its 1-based
position and leaves the store unchanged. -/
theorem createReservation_finds_appended (fd2 : FeederData) (user : String)
    (userEmail deviceId : Option String) (today now : Nat)
    (A : List Reservation) (rec : Reservation)
    (hfastb : isFastingDay fd2.timer.noFeedDay today = false)
    (hres : fd2.reservations = A ++ [rec])
    (hA : validReservations A = A)
    (hnone : A.find? (identityMatches deviceId userEmail) = none)
    (hnz : rec.scheduledTime ≠ 0)
    (hmatch : identityMatches deviceId userEmail rec = true) :
    createReservation fd2 user userEmail deviceId today now =
      (.existing rec (A.length + 1), fd2.reservations) := by
  have hvalid : validReservations fd2.reservations = A ++ [rec] := by
    rw [hres]
    simp only [validReservations] at hA ⊢
    rw [List.filter_append, hA]
    simp [hnz]
  have hfind2 : (validReservations fd2.reservations).find?
      (identityMatches deviceId userEmail) = some rec := by
    rw [hvalid, find?_append_left_none _ _ _ hnone]
    simp [List.find?_cons, hmatch]
  have hidx2 : (validReservations fd2.reservations).findIdx
      (identityMatches deviceId userEmail) = A.length := by
    rw [hvalid, findIdx_append_left_none _ _ _ hnone]
    simp [List.findIdx_cons, hmatch]
  simp [createReservation, hfastb, hfind2, hidx2]

/-- Counterexample to claim C8 as stated: a stored reservation matching the
request identity but carrying the falsy scheduled time 0 is invisible to
the lookup, so enqueue does not return it with its position: it creates a
second reservation for the same identity and rewrites the stored queue
(silently discarding the zero-scheduled entry) instead of leaving the queue
unmodified. -/
theorem enqueue_zero_schedule_counterexample :
    resZeroIdent ∈ fdZeroIdent.reservations ∧
    identityMatches (some "dev1") none resZeroIdent = true ∧
    (createReservation fdZeroIdent "Bob" none (some "dev1") 0 testNow).1 =
      .created createdRes 1 ∧
    (createReservation fdZeroIdent "Bob" none (some "dev1") 0 testNow).2 =
      [createdRes] := by
  decide

/-- Claim C8 (amended): when the valid portion of the queue (entries with a
nonzero scheduledInstant; the defensive filter drops the rest) already
holds a reservation whose identity (deviceId or contact address) matches
the request, enqueue returns the first such reservation unchanged together
with its current 1-based position and does not modify the stored queue;
consequently, after a successful creating call, a second call with the same
(nonempty) identity returns the created reservation at the same position,
and the two calls together grow the queue by exactly one entry. -/
theorem createReservation_idempotent (fd : FeederData) (user : String)
    (userEmail deviceId : Option String) (today now : Nat) :
    (∀ r, isFastingDay fd.timer.noFeedDay today = false →
      (validReservations fd.reservations).find?
        (identityMatches deviceId userEmail) = some r →
      ∃ k, (validReservations fd.reservations)[k]? = some r ∧
        identityMatches deviceId userEmail r = true ∧
        (∀ j < k, ∀ x, (validReservations fd.reservations)[j]? = some x →
          identityMatches deviceId userEmail x = false) ∧
        createReservation fd user userEmail deviceId today now =
          (.existing r (k + 1), fd.reservations)) ∧
    (∀ r1 p1 q1,
      ((∃ d, deviceId = some d ∧ d ≠ "") ∨ (∃ e, userEmail = some e ∧ e ≠ "")) →
      createReservation fd user userEmail deviceId today now = (.created r1 p1, q1) →
      q1.length = (validReservations fd.reservations).length + 1 ∧
      createReservation { fd with reservations := q1 } user userEmail deviceId
          today now = (.existing r1 p1, q1)) := by
  constructor
  · intro r hfast hfind
    obtain ⟨hp, hget, hbefore⟩ := find?_position (identityMatches deviceId userEmail)
      (validReservations fd.reservations) r hfind
    refine ⟨(validReservations fd.reservations).findIdx
      (identityMatches deviceId userEmail), hget, hp, hbefore, ?_⟩
    simp [createReservation, hfast, hfind]
  · intro r1 p1 q1 hid heq
    simp only [createReservation] at heq
    split at heq
    · simp at heq
    · next hfast =>
      split at heq
      · simp at heq
      · next hnone =>
        split at heq
        · simp at heq
        · next hlen =>
          split at heq
          · simp at heq
          · next hsched =>
            simp only [Prod.mk.injEq, EnqueueResult.created.injEq] at heq
            obtain ⟨⟨hr1, hp1⟩, hq1⟩ := heq
            have hfastb : isFastingDay fd.timer.noFeedDay today = false := by
              simpa using hfast
            have hnznew :
                (calculateScheduledTime (validReservations fd.reservations)
                  (normalizeLastFeedTime (fd.lastFeedTime.getD 0) now)
                  (calculateCooldownMs (fd.timer.hour.getD 0) (fd.timer.minute.getD 0))
                  now) ≠ 0 := by omega
            have hmatch : identityMatches deviceId userEmail
                { user := jsOr user (jsOr (userEmail.getD "") "Visitor")
                  userEmail := userEmail
                  deviceId := deviceId
                  scheduledTime := calculateScheduledTime (validReservations fd.reservations)
                    (normalizeLastFeedTime (fd.lastFeedTime.getD 0) now)
                    (calculateCooldownMs (fd.timer.hour.getD 0) (fd.timer.minute.getD 0)) now
                  createdAt := now } = true := by
              rcases hid with ⟨d, hd, hdne⟩ | ⟨e, he, hene⟩
              · subst hd
                simp [identityMatches, hdne]
              · subst he
                simp [identityMatches, hene]
            subst hr1
            subst hp1
            subst hq1
            refine ⟨by simp, ?_⟩
            have hsecond := createReservation_finds_appended
              { fd with reservations := validReservations fd.reservations ++
                  [{ user := jsOr user (jsOr (userEmail.getD "") "Visitor")
                     userEmail := userEmail
                     deviceId := deviceId
                     scheduledTime := calculateScheduledTime
                       (validReservations fd.reservations)
                       (normalizeLastFeedTime (fd.lastFeedTime.getD 0) now)
                       (calculateCooldownMs (fd.timer.hour.getD 0)
                         (fd.timer.minute.getD 0)) now
                     createdAt := now }] }
              user userEmail deviceId today now
              (validReservations fd.reservations)
              { user := jsOr user (jsOr (userEmail.getD "") "Visitor")
                userEmail := userEmail
                deviceId := deviceId
                scheduledTime := calculateScheduledTime
                  (validReservations fd.reservations)
                  (normalizeLastFeedTime (fd.lastFeedTime.getD 0) now)
                  (calculateCooldownMs (fd.timer.hour.getD 0)
                    (fd.timer.minute.getD 0)) now
                createdAt := now }
              (by simpa using hfastb) rfl (validReservations_idem _) hnone
              (by simpa using hnznew) hmatch
            simpa using hsecond


/-- Witness for claim C8: a lookup on a queue holding the fixture
reservation, and the created-then-existing pair of calls. -/
theorem createReservation_idempotent_witness :
    (∃ k, (validReservations fdWithRes.reservations)[k]? = some createdRes ∧
      identityMatches (some "dev1") none createdRes = true ∧
      (∀ j < k, ∀ x, (validReservations fdWithRes.reservations)[j]? = some x →
        identityMatches (some "dev1") none x = false) ∧
      createReservation fdWithRes "Bob" none (some "dev1") 0 testNow =
        (.existing createdRes (k + 1), fdWithRes.reservations)) ∧
    ([createdRes].length = (validReservations fdRecentFeed.reservations).length + 1 ∧
      createReservation { fdRecentFeed with reservations := [createdRes] } "Bob"
        none (some "dev1") 0 testNow = (.existing createdRes 1, [createdRes])) := by
  constructor
  · exact (createReservation_idempotent fdWithRes "Bob" none (some "dev1") 0
      testNow).1 createdRes (by decide) (by decide)
  · exact (createReservation_idempotent fdRecentFeed "Bob" none (some "dev1") 0
      testNow).2 createdRes 1 [createdRes] (Or.inl ⟨"dev1", rfl, by decide⟩)
      (by decide)
